import Mathlib

/-!
# dvpn-node: the chain query layer (`tx/query.go`) and the document-store
wrapper (`database/mongo.go`)

A shallow embedding of `Tx.QueryAccount`, `Tx.QuerySubscriptionByTxHash`,
`mongo.UpdateOne` and `mongo.UpdateMany`.

* Functions of other packages that the code calls (`Manager.QueryTx`, the amino
  codec, `sdk.StringifyEvents`, `common.QuerySubscription`,
  `sdk.AccAddressFromBech32`, `CLI.GetAccount`, the mgo driver) are fields of a
  record of collaborators; the ones that talk to the ledger thread an explicit
  ledger state `S`.
* `StringifyEvents` and `AccAddressFromBech32` are also given as the sdk defines
  them: the first groups the attributes per event type and sorts the groups by
  type, the second answers a blank string with the empty address and no error.
* Every collaborator call is appended to a call log, so that "is never called"
  is a statement about the log.
* A Go run-time panic (index out of range) is an explicit outcome.
-/

namespace DvpnNode

/-! ## Formatting with no operands: `errors.Errorf(format)` -/

/-- Flag characters skipped by the flag loop of `fmt`: `#`, `0`, `+`, `-` and
the blank. -/
def isFlag (c : Char) : Bool :=
  c == '#' || c == '0' || c == '+' || c == '-' || c == ' '

/-- The largest number `parsenum` accepts before it gives up (`tooLarge`). -/
def maxNum : Nat := 1000000

/-- Go's `fmt.parsenum` on the slice `s`: reads a run of decimal digits and
returns the number, whether a digit was read, and the unread rest of the slice.
Once the number read so far exceeds `maxNum` the scan gives up and reports the
whole slice as consumed. -/
def parsenum : List Char → Nat → Bool → Nat × Bool × List Char
  | [], num, isnum => (num, isnum, [])
  | c :: r, num, isnum =>
    if c.isDigit then
      if num > maxNum then (0, false, [])
      else parsenum r (num * 10 + (c.toNat - '0'.toNat)) true
    else (num, isnum, c :: r)

/-- Go's `fmt.parseArgNumber` on a format that starts with `[`: the width of
the bracketed index and whether it is a well-formed `[n]`. -/
def parseArgNumber (format : List Char) : Nat × Bool :=
  if format.length < 3 then (1, false)
  else
    let body := format.tail
    if body.contains ']' then
      let inner := body.takeWhile (fun c => c != ']')
      let i := inner.length + 1
      match parsenum inner 0 false with
      | (_, ok, rest) => if !ok || !rest.isEmpty then (i + 1, false) else (i + 1, true)
    else (1, false)

/-- Go's `pp.argNumber` when there are no operands: an explicit index `[n]` can
never name an operand, so meeting one always clears `goodArgNum`. Returns the
unread format, whether a well-formed index was found, and `goodArgNum`. -/
def argNumber (format : List Char) (goodArgNum : Bool) : List Char × Bool × Bool :=
  match format with
  | '[' :: _ =>
    match parseArgNumber format with
    | (wid, ok) => (format.drop wid, ok, false)
  | _ => (format, false, goodArgNum)

/-- One formatting directive of `fmt.doPrintf` with an empty operand list: the
argument is the format after a `%`; the result is the text written and the
unread format. A precision is read only when something follows the dot
(`i+1 < end`); a dot that ends the format is taken as the verb. -/
def directive (r : List Char) : List Char × List Char :=
  let r1 := r.dropWhile isFlag
  match argNumber r1 true with
  | (r2, after1, good1) =>
    let width : List Char × List Char × Bool × Bool :=
      match r2 with
      | '*' :: t => ("%!(BADWIDTH)".data, t, false, good1)
      | _ =>
        match parsenum r2 0 false with
        | (_, present, t) => ([], t, after1, good1 && !(after1 && present))
    match width with
    | (out1, r3, after2, good2) =>
      let prec : List Char × List Char × Bool × Bool :=
        match r3 with
        | '.' :: c :: t' =>
          match argNumber (c :: t') (good2 && !after2) with
          | (t1, after, good) =>
            match t1 with
            | '*' :: t2 => ("%!(BADPREC)".data, t2, false, good)
            | _ =>
              match parsenum t1 0 false with
              | (_, _, t2) => ([], t2, after, good)
        | _ => ([], r3, after2, good2)
      match prec with
      | (out2, r4, after3, good3) =>
        let last : List Char × Bool × Bool :=
          if !after3 then argNumber r4 good3 else (r4, after3, good3)
        match last with
        | (r5, _, good4) =>
          match r5 with
          | [] => (out1 ++ out2 ++ "%!(NOVERB)".data, [])
          | verb :: rest =>
            if verb == '%' then (out1 ++ out2 ++ ['%'], rest)
            else if !good4 then (out1 ++ out2 ++ "%!".data ++ [verb] ++ "(BADINDEX)".data, rest)
            else (out1 ++ out2 ++ "%!".data ++ [verb] ++ "(MISSING)".data, rest)

/-- The format loop of `fmt.doPrintf` with an empty operand list. `skip` counts
the characters of the format that the last directive has already consumed. -/
def doPrintf : List Char → Nat → List Char
  | [], _ => []
  | _ :: r, skip + 1 => doPrintf r skip
  | c :: r, 0 =>
    if c == '%' then
      match directive r with
      | (out, rest) => out ++ doPrintf r (r.length - rest.length)
    else c :: doPrintf r 0

/-- Go's `fmt.Sprintf(format)` called with a format and no operands. -/
def Sprintf (format : String) : String :=
  String.mk (doPrintf format.data 0)

/-! ## Values of the libraries the code works with -/

/-- A byte string (`[]byte`). -/
abbrev Bytes := List Nat

/-- A Go `error` value: one built in this package by `errors.Errorf`
(`fundamental`, carrying its message), or one handed back by a collaborator. -/
inductive Error where
  | fundamental (msg : String)
  | foreign (code : Nat) (msg : String)
  deriving DecidableEq, Repr

/-- The message of an error (Go's `Error()` method). -/
def Error.Message : Error → String
  | .fundamental msg => msg
  | .foreign _ msg => msg

/-- The `errors.Errorf(format)` of github.com/pkg/errors, called with a format
and no operands: the message is `fmt.Sprintf(format)`. -/
def Errorf (format : String) : Error :=
  Error.fundamental (Sprintf format)

/-- An attribute of an ABCI event (`common.KVPair`). -/
structure KVPair where
  Key : Bytes
  Value : Bytes
  deriving DecidableEq, Repr

/-- An event as the ledger emits it (`abci.Event`). -/
structure Event where
  EventType : String
  Attributes : List KVPair
  deriving DecidableEq, Repr

/-- The execution result of a transaction (`abci.ResponseDeliverTx`): its code,
the text that its `String()` method renders, and the events it emitted. -/
structure ResponseDeliverTx where
  Code : Nat
  Text : String
  Events : List Event
  deriving DecidableEq, Repr

/-- The code of a successful execution (`abci.CodeTypeOK`). -/
def CodeTypeOK : Nat := 0

/-- Go's `ResponseDeliverTx.IsOK`. -/
def ResponseDeliverTx.IsOK (r : ResponseDeliverTx) : Bool :=
  r.Code == CodeTypeOK

/-- Go's `ResponseDeliverTx.String`. -/
def ResponseDeliverTx.String (r : ResponseDeliverTx) : String :=
  r.Text

/-- What `Manager.QueryTx` returns on success (`ctypes.ResultTx`): the raw
transaction bytes and the execution result. -/
structure ResultTx where
  Tx : Bytes
  TxResult : ResponseDeliverTx
  deriving DecidableEq, Repr

/-- An attribute of a stringified event (`sdk.Attribute`). -/
structure Attribute where
  Key : String
  Value : String
  deriving DecidableEq, Repr

/-- An element of what `sdk.StringifyEvents` returns (`sdk.StringEvent`). -/
structure StringEvent where
  EventType : String
  Attributes : List Attribute
  deriving DecidableEq, Repr

/-- A message of a transaction (`sdk.Msg`): what its `Type()` method returns and
its body. -/
structure Msg where
  TypeName : String
  Body : Bytes
  deriving DecidableEq, Repr

/-- The decoded transaction (`auth.StdTx`), of which the code reads `Msgs`. -/
structure StdTx where
  Msgs : List Msg
  deriving DecidableEq, Repr

/-- A subscription record of the ledger (`vpn.Subscription`). -/
structure Subscription where
  ID : String
  Record : String
  deriving DecidableEq, Repr

/-- An account of the ledger (`auth.Account`). -/
structure Account where
  Address : Bytes
  Sequence : Nat
  deriving DecidableEq, Repr

/-! ## Functions of the cosmos-sdk that the code calls -/

/-- Go's `string(b)` for a byte string, read one character per byte (exact for
bytes below 128). -/
def bytesToString (b : Bytes) : String :=
  String.mk (b.map Char.ofNat)

/-- The sdk's `StringifyEvent`: the type, and every key and value as text. -/
def StringifyEvent (e : Event) : StringEvent :=
  { EventType := e.EventType
    Attributes := e.Attributes.map fun a =>
      { Key := bytesToString a.Key, Value := bytesToString a.Value } }

/-- Lexicographic order on character sequences, by code point. -/
def ltChars : List Char → List Char → Bool
  | _, [] => false
  | [], _ :: _ => true
  | a :: as, b :: bs =>
    if a.toNat < b.toNat then true
    else if b.toNat < a.toNat then false
    else ltChars as bs

/-- Go's `<` on strings, the order `sort.Strings` sorts by: byte-wise
lexicographic, which on well-formed text is the order by code point. -/
def stringLess (x y : String) : Bool :=
  ltChars x.data y.data

/-- Inserts a type into an ascending list of distinct types. -/
def insertType (ty : String) : List String → List String
  | [] => [ty]
  | k :: ks =>
    if stringLess ty k then ty :: k :: ks
    else if ty = k then k :: ks
    else k :: insertType ty ks

/-- The distinct event types of a sequence in ascending order (the keys of the
map built by `Flatten`, after `sort.Strings`). -/
def sortedTypes (se : List StringEvent) : List String :=
  se.foldr (fun e acc => insertType e.EventType acc) []

/-- The attributes of all events of one type, in the order of the sequence. -/
def attributesOfType (se : List StringEvent) (ty : String) : List Attribute :=
  (se.filter fun e => e.EventType == ty).foldr (fun e acc => e.Attributes ++ acc) []

/-- The sdk's `StringEvents.Flatten`: one event per type, holding the attributes
of every event of that type, the events ordered by type. -/
def Flatten (se : List StringEvent) : List StringEvent :=
  (sortedTypes se).map fun ty => { EventType := ty, Attributes := attributesOfType se ty }

/-- The sdk's `StringifyEvents`: every event stringified, then flattened. -/
def StringifyEvents (events : List Event) : List StringEvent :=
  Flatten (events.map StringifyEvent)

/-- Go's `unicode.IsSpace`. -/
def isSpace (c : Char) : Bool :=
  c == '\t' || c == '\n' || c.toNat == 11 || c.toNat == 12 || c == '\r' || c == ' '
    || c.toNat == 0x85 || c.toNat == 0xA0 || c.toNat == 0x1680
    || (0x2000 ≤ c.toNat && c.toNat ≤ 0x200A) || c.toNat == 0x2028 || c.toNat == 0x2029
    || c.toNat == 0x202F || c.toNat == 0x205F || c.toNat == 0x3000

/-- The test `len(strings.TrimSpace(address)) == 0`. -/
def isBlank (address : String) : Bool :=
  address.data.all isSpace

/-- The sdk's `AccAddressFromBech32` over a bech32 decoder (`GetFromBech32`
followed by `VerifyAddressFormat`): the empty or blank string is answered with
the empty address and no error; every other string goes to the decoder. -/
def AccAddressFromBech32 (decode : String → Bytes × Option Error) (address : String) :
    Bytes × Option Error :=
  if isBlank address then ([], none) else decode address

/-- A call to a collaborator, with its arguments. -/
inductive Call where
  | QueryTx (hash : String)
  | UnmarshalBinaryLengthPrefixed (bz : Bytes)
  | StringifyEvents (events : List Event)
  | QuerySubscription (id : String)
  | AccAddressFromBech32 (address : String)
  | GetAccount (address : Bytes)
  deriving DecidableEq, Repr

/-- How a Go function with results `(*T, error)` ends: it returns a pair, each
half of which may be nil, or it panics on an index out of range. -/
inductive Outcome (α : Type) where
  | returned (value : Option α) (err : Option Error)
  | indexOutOfRange (index : Nat) (length : Nat)
  deriving DecidableEq, Repr

/-- A finished run: the outcome, the ledger state left behind, and the
collaborator calls made, in order. -/
structure Run (S α : Type) where
  outcome : Outcome α
  state : S
  calls : List Call

/-- The collaborators of `Tx` (`t.Manager`, its `CLI`, and the sdk functions
used), over a ledger state `S`. `QueryTx` gives a result or an error;
`QuerySubscription` and `GetAccount` give a Go pair `(value, error)`. -/
structure Tx (S : Type) where
  QueryTx : String → S → Except Error ResultTx × S
  UnmarshalBinaryLengthPrefixed : Bytes → Except Error StdTx
  StringifyEvents : List Event → List StringEvent
  QuerySubscription : String → S → (Option Subscription × Option Error) × S
  AccAddressFromBech32 : String → Bytes × Option Error
  GetAccount : Bytes → S → (Option Account × Option Error) × S

/-! ## `tx/query.go` -/

/-- The condition `len(stdTx.Msgs) != 1 || stdTx.Msgs[0].Type() != "start_subscription"`
with Go's short-circuit evaluation; `none` if indexing `Msgs[0]` panics. -/
def invalidSubscriptionTx (stdTx : StdTx) : Option Bool :=
  if stdTx.Msgs.length != 1 then some true
  else
    match stdTx.Msgs[0]? with
    | none => none
    | some m => some (m.TypeName != "start_subscription")

/-- `Tx.QuerySubscriptionByTxHash`. -/
def QuerySubscriptionByTxHash {S : Type} (t : Tx S) (hash : String) (s : S) :
    Run S Subscription :=
  match t.QueryTx hash s with
  | (.error err, s1) => ⟨.returned none (some err), s1, [.QueryTx hash]⟩
  | (.ok res, s1) =>
    if !res.TxResult.IsOK then
      ⟨.returned none (some (Errorf res.TxResult.String)), s1, [.QueryTx hash]⟩
    else
      match t.UnmarshalBinaryLengthPrefixed res.Tx with
      | .error err =>
        ⟨.returned none (some err), s1, [.QueryTx hash, .UnmarshalBinaryLengthPrefixed res.Tx]⟩
      | .ok stdTx =>
        match invalidSubscriptionTx stdTx with
        | none =>
          ⟨.indexOutOfRange 0 stdTx.Msgs.length, s1,
            [.QueryTx hash, .UnmarshalBinaryLengthPrefixed res.Tx]⟩
        | some true =>
          ⟨.returned none (some (Errorf "Invalid subscription transaction")), s1,
            [.QueryTx hash, .UnmarshalBinaryLengthPrefixed res.Tx]⟩
        | some false =>
          let events := t.StringifyEvents res.TxResult.Events
          let log : List Call :=
            [.QueryTx hash, .UnmarshalBinaryLengthPrefixed res.Tx,
              .StringifyEvents res.TxResult.Events]
          match events[1]? with
          | none => ⟨.indexOutOfRange 1 events.length, s1, log⟩
          | some e =>
            match e.Attributes[0]? with
            | none => ⟨.indexOutOfRange 0 e.Attributes.length, s1, log⟩
            | some a =>
              let id := a.Value
              match t.QuerySubscription id s1 with
              | ((sub, err), s2) => ⟨.returned sub err, s2, log ++ [.QuerySubscription id]⟩

/-! ## `database/mongo.go` -/

/-- The connection settings of the wrapper (`mongo`). -/
structure mongo where
  url : String
  username : String
  password : String
  deriving DecidableEq, Repr

/-- The dial settings handed to the driver (`mgo.DialInfo`); `Timeout` is in
nanoseconds. -/
structure DialInfo where
  Addrs : List String
  Timeout : Nat
  Username : String
  Password : String
  deriving DecidableEq, Repr

/-- A driver session (`*mgo.Session`), identified by the settings it was dialled
with. -/
structure Session where
  Info : DialInfo
  deriving DecidableEq, Repr

/-- A value passed as `interface{}`: a document, or the session handle. -/
inductive Value where
  | document (json : String)
  | session (h : Session)
  deriving DecidableEq, Repr

/-- What `UpdateAll` reports (`mgo.ChangeInfo`). -/
structure ChangeInfo where
  Updated : Nat
  Matched : Nat
  deriving DecidableEq, Repr

/-- A call to the mgo driver, with its arguments. -/
inductive MgoCall where
  | DialWithInfo (settings : DialInfo)
  | Update (database collection : String) (selector update : Value)
  | UpdateAll (database collection : String) (selector update : Value)
  | Close (h : Session)
  deriving DecidableEq, Repr

/-- The mgo driver: dialling, and the two update operations of a collection. -/
structure Driver where
  DialWithInfo : DialInfo → Except Error Session
  Update : String → String → Value → Value → Option Error
  UpdateAll : String → String → Value → Value → Option ChangeInfo × Option Error

/-- One second in nanoseconds (`time.Second`). -/
def Second : Nat := 1000000000

/-- `mongo.newSession`: the settings dialled, and what the driver answers. -/
def mongo.newSession (m : mongo) (d : Driver) : DialInfo × Except Error Session :=
  let settings : DialInfo :=
    { Addrs := [m.url], Timeout := 60 * Second, Username := m.username, Password := m.password }
  (settings, d.DialWithInfo settings)

/-- `mongo.UpdateOne`: the error returned and the driver calls made. The body
calls `c.Update(session, update)`; the parameter `selector` is not used. -/
def mongo.UpdateOne (m : mongo) (d : Driver) (database collection : String)
    (selector update : Value) : Option Error × List MgoCall :=
  match m.newSession d with
  | (settings, .error err) => (some err, [.DialWithInfo settings])
  | (settings, .ok session) =>
    (d.Update database collection (.session session) update,
      [.DialWithInfo settings, .Update database collection (.session session) update,
        .Close session])

/-- `mongo.UpdateMany`: the change report and error returned, and the driver
calls made. The body calls `c.UpdateAll(session, update)`; the parameter
`selector` is not used. -/
def mongo.UpdateMany (m : mongo) (d : Driver) (database collection : String)
    (selector update : Value) : (Option ChangeInfo × Option Error) × List MgoCall :=
  match m.newSession d with
  | (settings, .error err) => ((none, some err), [.DialWithInfo settings])
  | (settings, .ok session) =>
    (d.UpdateAll database collection (.session session) update,
      [.DialWithInfo settings, .UpdateAll database collection (.session session) update,
        .Close session])

/-! ## A concrete ledger, for evaluating the code -/

/-- The two events of the sample start-subscription transaction; the value of the
first attribute of the second one reads `sub-42`. -/
def sampleEvents : List Event :=
  [ { EventType := "message", Attributes := [⟨[97], [49]⟩] },
    { EventType := "subscription", Attributes := [⟨[105, 100], [115, 117, 98, 45, 52, 50]⟩] } ]

/-- The events of a transaction whose subscription the ledger no longer holds; the
identifier reads `sub-7`. -/
def prunedEvents : List Event :=
  [ { EventType := "message", Attributes := [⟨[97], [49]⟩] },
    { EventType := "subscription", Attributes := [⟨[105, 100], [115, 117, 98, 45, 55]⟩] } ]

/-- The two events of the sample transaction emitted in the other order: the
subscription event first, the message event second. -/
def reversedEvents : List Event :=
  [ { EventType := "subscription", Attributes := [⟨[105, 100], [115, 117, 98, 45, 52, 50]⟩] },
    { EventType := "message", Attributes := [⟨[97], [49]⟩] } ]

/-- The bech32 decoder of the sample ledger. -/
def sampleDecode (address : String) : Bytes × Option Error :=
  if address = "sent1qq" then ([0], none)
  else if address = "sent1pp" then ([1], none)
  else if address = "sent1zz" then ([2], none)
  else ([], some (.foreign 2 "decoding bech32 failed"))

/-- The record the sample ledger holds under `sub-42`. -/
def sampleSubscription : Subscription :=
  { ID := "sub-42", Record := "node0 10GB" }

/-- A sample ledger whose queries leave the state as they found it; events are
stringified and addresses parsed as the sdk does. -/
def sampleTx : Tx Nat where
  QueryTx hash s :=
    if hash = "ABC123" then (.ok ⟨[1], ⟨0, "code:0", sampleEvents⟩⟩, s)
    else if hash = "DEAD" then (.ok ⟨[1], ⟨5, "code:5 log:\"out of gas\"", []⟩⟩, s)
    else if hash = "C0DE" then (.ok ⟨[], ⟨0, "code:0", sampleEvents⟩⟩, s)
    else if hash = "7777" then (.ok ⟨[1], ⟨0, "code:0", prunedEvents⟩⟩, s)
    else if hash = "2222" then (.ok ⟨[2], ⟨0, "code:0", sampleEvents⟩⟩, s)
    else if hash = "E0E0" then (.ok ⟨[1], ⟨0, "code:0", []⟩⟩, s)
    else if hash = "5555" then
      (.ok ⟨[1], ⟨5, "code:5 log:\"fee 5% exceeded\"", []⟩⟩, s)
    else if hash = "BA5E" then (.ok ⟨[1], ⟨0, "code:0", reversedEvents⟩⟩, s)
    else (.error (.foreign 404 "tx not found"), s)
  UnmarshalBinaryLengthPrefixed bz :=
    if bz = [1] then .ok ⟨[⟨"start_subscription", [7]⟩]⟩
    else if bz = [2] then .ok ⟨[⟨"start_subscription", [7]⟩, ⟨"send", [8]⟩]⟩
    else .error (.foreign 1 "unexpected EOF")
  StringifyEvents := StringifyEvents
  QuerySubscription id s :=
    if id = "sub-42" then ((some sampleSubscription, none), s)
    else ((none, some (.foreign 404 "subscription does not exist")), s)
  AccAddressFromBech32 := AccAddressFromBech32 sampleDecode
  GetAccount address s :=
    if address = [0] then ((some ⟨[0], 3⟩, none), s)
    else if address = [1] then ((none, none), s)
    else if address = [] then ((none, none), s)
    else ((none, some (.foreign 3 "connection refused")), s)

/-- A driver that accepts every dial and every update. -/
def sampleDriver : Driver where
  DialWithInfo settings := .ok ⟨settings⟩
  Update _ _ _ _ := none
  UpdateAll _ _ _ _ := (some ⟨1, 1⟩, none)

/-- The wrapper's settings used in the evaluation. -/
def sampleMongo : mongo :=
  { url := "localhost:27017", username := "u", password := "p" }

/-! ## Lemmas on the embedding -/

/-- A format without `%` is written out unchanged. -/
theorem doPrintf_of_no_percent (l : List Char) (h : '%' ∉ l) : doPrintf l 0 = l := by
  induction l with
  | nil => rfl
  | cons c r ih =>
    have hc : c ≠ '%' := fun e => h (by simp [e])
    have hr : '%' ∉ r := fun e => h (by simp [e])
    simp [doPrintf, hc, ih hr]

/-- The message `"Invalid subscription transaction"` has no directive. -/
theorem Errorf_invalid :
    Errorf "Invalid subscription transaction"
      = Error.fundamental "Invalid subscription transaction" := by
  decide

/-- The validation condition never indexes a message that is not there. -/
theorem invalidSubscriptionTx_ne_none (stdTx : StdTx) : invalidSubscriptionTx stdTx ≠ none := by
  unfold invalidSubscriptionTx
  rcases stdTx with ⟨msgs⟩
  match msgs with
  | [] => simp
  | [m] => simp
  | _ :: _ :: _ => simp

/-- The validation condition is false exactly for a single message of type
`"start_subscription"`. -/
theorem invalidSubscriptionTx_eq_false (stdTx : StdTx) :
    invalidSubscriptionTx stdTx = some false
      ↔ ∃ m, stdTx.Msgs = [m] ∧ m.TypeName = "start_subscription" := by
  unfold invalidSubscriptionTx
  rcases stdTx with ⟨msgs⟩
  match msgs with
  | [] => simp
  | [m] => simp
  | _ :: _ :: _ => simp

/-- In every other case the validation condition is true. -/
theorem invalidSubscriptionTx_eq_true (stdTx : StdTx)
    (h : ¬ ∃ m, stdTx.Msgs = [m] ∧ m.TypeName = "start_subscription") :
    invalidSubscriptionTx stdTx = some true := by
  have h1 := invalidSubscriptionTx_ne_none stdTx
  have h2 := (invalidSubscriptionTx_eq_false stdTx).not.mpr h
  match hv : invalidSubscriptionTx stdTx with
  | none => exact absurd hv h1
  | some true => rfl
  | some false => exact absurd hv h2

/-- The run when the fetch fails. -/
theorem run_fetch_error {S : Type} (t : Tx S) (hash : String) (s s1 : S) (e : Error)
    (hq : t.QueryTx hash s = (.error e, s1)) :
    QuerySubscriptionByTxHash t hash s = ⟨.returned none (some e), s1, [.QueryTx hash]⟩ := by
  unfold QuerySubscriptionByTxHash
  rw [hq]

/-- The run when the fetched result reports a failed execution. -/
theorem run_not_ok {S : Type} (t : Tx S) (hash : String) (s s1 : S) (res : ResultTx)
    (hq : t.QueryTx hash s = (.ok res, s1)) (hfail : res.TxResult.IsOK = false) :
    QuerySubscriptionByTxHash t hash s
      = ⟨.returned none (some (Errorf res.TxResult.String)), s1, [.QueryTx hash]⟩ := by
  unfold QuerySubscriptionByTxHash
  rw [hq]
  simp [hfail]

/-- The run when the decoder rejects the payload. -/
theorem run_decode_error {S : Type} (t : Tx S) (hash : String) (s s1 : S) (res : ResultTx)
    (e : Error) (hq : t.QueryTx hash s = (.ok res, s1)) (hok : res.TxResult.IsOK = true)
    (hd : t.UnmarshalBinaryLengthPrefixed res.Tx = .error e) :
    QuerySubscriptionByTxHash t hash s
      = ⟨.returned none (some e), s1, [.QueryTx hash, .UnmarshalBinaryLengthPrefixed res.Tx]⟩ := by
  unfold QuerySubscriptionByTxHash
  rw [hq]
  simp [hok, hd]

/-- The run when validation rejects the decoded transaction. -/
theorem run_invalid {S : Type} (t : Tx S) (hash : String) (s s1 : S) (res : ResultTx)
    (stdTx : StdTx) (hq : t.QueryTx hash s = (.ok res, s1)) (hok : res.TxResult.IsOK = true)
    (hd : t.UnmarshalBinaryLengthPrefixed res.Tx = .ok stdTx)
    (hv : invalidSubscriptionTx stdTx = some true) :
    QuerySubscriptionByTxHash t hash s
      = ⟨.returned none (some (Errorf "Invalid subscription transaction")), s1,
          [.QueryTx hash, .UnmarshalBinaryLengthPrefixed res.Tx]⟩ := by
  unfold QuerySubscriptionByTxHash
  rw [hq]
  simp [hok, hd, hv]

/-- The run once validation has passed: the events are stringified and indexed. -/
theorem run_valid {S : Type} (t : Tx S) (hash : String) (s s1 : S) (res : ResultTx)
    (stdTx : StdTx) (hq : t.QueryTx hash s = (.ok res, s1)) (hok : res.TxResult.IsOK = true)
    (hd : t.UnmarshalBinaryLengthPrefixed res.Tx = .ok stdTx)
    (hv : invalidSubscriptionTx stdTx = some false) :
    QuerySubscriptionByTxHash t hash s
      = match (t.StringifyEvents res.TxResult.Events)[1]? with
        | none =>
          ⟨.indexOutOfRange 1 (t.StringifyEvents res.TxResult.Events).length, s1,
            [.QueryTx hash, .UnmarshalBinaryLengthPrefixed res.Tx,
              .StringifyEvents res.TxResult.Events]⟩
        | some e =>
          match e.Attributes[0]? with
          | none =>
            ⟨.indexOutOfRange 0 e.Attributes.length, s1,
              [.QueryTx hash, .UnmarshalBinaryLengthPrefixed res.Tx,
                .StringifyEvents res.TxResult.Events]⟩
          | some a =>
            ⟨.returned (t.QuerySubscription a.Value s1).1.1 (t.QuerySubscription a.Value s1).1.2,
              (t.QuerySubscription a.Value s1).2,
              [.QueryTx hash, .UnmarshalBinaryLengthPrefixed res.Tx,
                .StringifyEvents res.TxResult.Events, .QuerySubscription a.Value]⟩ := by
  unfold QuerySubscriptionByTxHash
  rw [hq]
  simp only [hok, hd, hv, Bool.not_true, Bool.false_eq_true, if_false]
  cases (t.StringifyEvents res.TxResult.Events)[1]? with
  | none => rfl
  | some e =>
    cases e.Attributes[0]? with
    | none => rfl
    | some a => rfl

/-- No character sequence is below itself. -/
theorem ltChars_irrefl (l : List Char) : ltChars l l = false := by
  induction l with
  | nil => rfl
  | cons c r ih => simp [ltChars, ih]

/-- Two events of ascending, distinct types are stringified one by one, in the
order they were emitted. -/
theorem StringifyEvents_pair (E0 E1 : Event)
    (hlt : stringLess E0.EventType E1.EventType = true) :
    StringifyEvents [E0, E1] = [StringifyEvent E0, StringifyEvent E1] := by
  have hne : E1.EventType ≠ E0.EventType := by
    intro h
    rw [h, stringLess, ltChars_irrefl] at hlt
    exact Bool.noConfusion hlt
  simp [StringifyEvents, Flatten, sortedTypes, attributesOfType, insertType, StringifyEvent,
    hlt, hne, hne.symm]

/-- The run when every gate passes, in terms of the sequence the function
indexes: the identifier is the first attribute value of its second entry. -/
theorem resolve_by_second_stringified_event {S : Type} (t : Tx S) (hash : String)
    (s s1 s2 : S) (res : ResultTx) (stdTx : StdTx) (m : Msg) (E0 E1 : StringEvent)
    (more : List StringEvent) (a : Attribute) (attrs : List Attribute) (id : String)
    (sub : Option Subscription) (err : Option Error)
    (hq : t.QueryTx hash s = (.ok res, s1)) (hok : res.TxResult.IsOK = true)
    (hd : t.UnmarshalBinaryLengthPrefixed res.Tx = .ok stdTx) (hm : stdTx.Msgs = [m])
    (ht : m.TypeName = "start_subscription")
    (hev : t.StringifyEvents res.TxResult.Events = E0 :: E1 :: more)
    (hat : E1.Attributes = a :: attrs) (hid : a.Value = id)
    (hqs : t.QuerySubscription id s1 = ((sub, err), s2)) :
    QuerySubscriptionByTxHash t hash s
      = ⟨.returned sub err, s2,
          [.QueryTx hash, .UnmarshalBinaryLengthPrefixed res.Tx,
            .StringifyEvents res.TxResult.Events, .QuerySubscription id]⟩ := by
  have hf := (invalidSubscriptionTx_eq_false stdTx).mpr ⟨m, hm, ht⟩
  rw [run_valid t hash s s1 res stdTx hq hok hd hf, hev]
  subst hid
  simp [hat, hqs]

/-! ## The claims -/

/-- C1: when the fetch succeeds but the execution status is not OK, the function
returns no subscription and the error built from the result's text, the only
collaborator call is the fetch, and neither the decoder nor the
subscription-by-ID query is called. -/
theorem C1_failed_execution_returns_chain_error {S : Type} (t : Tx S) (hash : String)
    (s s1 : S) (res : ResultTx) (hq : t.QueryTx hash s = (.ok res, s1))
    (hfail : res.TxResult.IsOK = false) :
    (QuerySubscriptionByTxHash t hash s).outcome
        = .returned none (some (Errorf res.TxResult.String))
      ∧ (QuerySubscriptionByTxHash t hash s).calls = [.QueryTx hash]
      ∧ (∀ bz, Call.UnmarshalBinaryLengthPrefixed bz ∉ (QuerySubscriptionByTxHash t hash s).calls)
      ∧ (∀ id, Call.QuerySubscription id ∉ (QuerySubscriptionByTxHash t hash s).calls) := by
  rw [run_not_ok t hash s s1 res hq hfail]
  simp

/-- Witness of C1 on the sample ledger, hash `DEAD`. -/
theorem C1_failed_execution_witness :
    (QuerySubscriptionByTxHash sampleTx "DEAD" 0).outcome
        = .returned none (some (Errorf "code:5 log:\"out of gas\""))
      ∧ (QuerySubscriptionByTxHash sampleTx "DEAD" 0).calls = [.QueryTx "DEAD"]
      ∧ (∀ bz, Call.UnmarshalBinaryLengthPrefixed bz
          ∉ (QuerySubscriptionByTxHash sampleTx "DEAD" 0).calls)
      ∧ (∀ id, Call.QuerySubscription id ∉ (QuerySubscriptionByTxHash sampleTx "DEAD" 0).calls) :=
  C1_failed_execution_returns_chain_error sampleTx "DEAD" 0 0
    ⟨[1], ⟨5, "code:5 log:\"out of gas\"", []⟩⟩ (by rfl) (by decide)

/-- C6: when the decoder rejects the payload of a successful result, the
function returns no subscription and the decoder's error; the only collaborator
calls are the fetch and the decode, so no event is stringified or indexed and the
subscription-by-ID query is not called. -/
theorem C6_decode_error_returned_before_events {S : Type} (t : Tx S) (hash : String)
    (s s1 : S) (res : ResultTx) (e : Error) (hq : t.QueryTx hash s = (.ok res, s1))
    (hok : res.TxResult.IsOK = true)
    (hd : t.UnmarshalBinaryLengthPrefixed res.Tx = .error e) :
    (QuerySubscriptionByTxHash t hash s).outcome = .returned none (some e)
      ∧ (QuerySubscriptionByTxHash t hash s).calls
          = [.QueryTx hash, .UnmarshalBinaryLengthPrefixed res.Tx]
      ∧ (∀ ev, Call.StringifyEvents ev ∉ (QuerySubscriptionByTxHash t hash s).calls)
      ∧ (∀ id, Call.QuerySubscription id ∉ (QuerySubscriptionByTxHash t hash s).calls) := by
  rw [run_decode_error t hash s s1 res e hq hok hd]
  simp

/-- Witness of C6 on the sample ledger, hash `C0DE` (an empty payload). -/
theorem C6_decode_error_witness :
    (QuerySubscriptionByTxHash sampleTx "C0DE" 0).outcome
        = .returned none (some (.foreign 1 "unexpected EOF"))
      ∧ (QuerySubscriptionByTxHash sampleTx "C0DE" 0).calls
          = [.QueryTx "C0DE", .UnmarshalBinaryLengthPrefixed []]
      ∧ (∀ ev, Call.StringifyEvents ev ∉ (QuerySubscriptionByTxHash sampleTx "C0DE" 0).calls)
      ∧ (∀ id, Call.QuerySubscription id ∉ (QuerySubscriptionByTxHash sampleTx "C0DE" 0).calls) :=
  C6_decode_error_returned_before_events sampleTx "C0DE" 0 0 ⟨[], ⟨0, "code:0", sampleEvents⟩⟩
    (.foreign 1 "unexpected EOF") (by rfl) (by decide) (by rfl)

/-- C3: for a successful, decoded transaction the run goes past validation (the
events are stringified) if and only if there is exactly one message and its type
is `"start_subscription"`; in every other case the function returns no
subscription and the error `"Invalid subscription transaction"`, the only calls
are the fetch and the decode (no event read, no ledger query), and there is no
panic from indexing a message. -/
theorem C3_validation_gate {S : Type} (t : Tx S) (hash : String) (s s1 : S) (res : ResultTx)
    (stdTx : StdTx) (hq : t.QueryTx hash s = (.ok res, s1)) (hok : res.TxResult.IsOK = true)
    (hd : t.UnmarshalBinaryLengthPrefixed res.Tx = .ok stdTx) :
    ((∃ m, stdTx.Msgs = [m] ∧ m.TypeName = "start_subscription")
        ↔ Call.StringifyEvents res.TxResult.Events ∈ (QuerySubscriptionByTxHash t hash s).calls)
      ∧ ((¬ ∃ m, stdTx.Msgs = [m] ∧ m.TypeName = "start_subscription") →
          (QuerySubscriptionByTxHash t hash s).outcome
              = .returned none (some (Error.fundamental "Invalid subscription transaction"))
            ∧ (QuerySubscriptionByTxHash t hash s).calls
                = [.QueryTx hash, .UnmarshalBinaryLengthPrefixed res.Tx]) := by
  by_cases hv : ∃ m, stdTx.Msgs = [m] ∧ m.TypeName = "start_subscription"
  · have hf := (invalidSubscriptionTx_eq_false stdTx).mpr hv
    rw [run_valid t hash s s1 res stdTx hq hok hd hf]
    refine ⟨⟨fun _ => ?_, fun _ => hv⟩, fun h => absurd hv h⟩
    split
    · simp
    · split <;> simp
  · have ht := invalidSubscriptionTx_eq_true stdTx hv
    rw [run_invalid t hash s s1 res stdTx hq hok hd ht, Errorf_invalid]
    refine ⟨⟨fun h => absurd h hv, fun h => ?_⟩, fun _ => ⟨rfl, rfl⟩⟩
    simp at h

/-- Witness of C3 on the sample ledger, hash `2222` (a transaction of two
messages): the rejection and the calls made. -/
theorem C3_validation_gate_witness :
    (QuerySubscriptionByTxHash sampleTx "2222" 0).outcome
        = .returned none (some (Error.fundamental "Invalid subscription transaction"))
      ∧ (QuerySubscriptionByTxHash sampleTx "2222" 0).calls
          = [.QueryTx "2222", .UnmarshalBinaryLengthPrefixed [2]] :=
  (C3_validation_gate sampleTx "2222" 0 0 ⟨[2], ⟨0, "code:0", sampleEvents⟩⟩
    ⟨[⟨"start_subscription", [7]⟩, ⟨"send", [8]⟩]⟩ (by rfl) (by decide) (by rfl)).2 (by simp)

/-- C4 (amended): `sdk.StringifyEvents` groups the emitted attributes per event
type and sorts the groups by type before the function indexes them. When the
fetched result is successful, the payload decodes to exactly one
`start_subscription` message and the emitted events are `[E0, E1]` with `E0`'s
type sorting strictly before `E1`'s type and `E1`'s first attribute value reading
`id`, the subscription-by-ID query is called exactly once, with `id`, after the
fetch, the decode and the stringification, and the function returns exactly the
record and the error of that call. -/
theorem C4_end_to_end_success_for_ascending_types {S : Type} (t : Tx S) (hash : String)
    (s s1 s2 : S) (res : ResultTx) (stdTx : StdTx) (m : Msg) (E0 E1 : Event) (a : KVPair)
    (attrs : List KVPair) (id : String) (sub : Option Subscription) (err : Option Error)
    (hstr : t.StringifyEvents = StringifyEvents)
    (hq : t.QueryTx hash s = (.ok res, s1)) (hok : res.TxResult.IsOK = true)
    (hd : t.UnmarshalBinaryLengthPrefixed res.Tx = .ok stdTx) (hm : stdTx.Msgs = [m])
    (ht : m.TypeName = "start_subscription") (hev : res.TxResult.Events = [E0, E1])
    (hlt : stringLess E0.EventType E1.EventType = true)
    (hat : E1.Attributes = a :: attrs) (hid : bytesToString a.Value = id)
    (hqs : t.QuerySubscription id s1 = ((sub, err), s2)) :
    (QuerySubscriptionByTxHash t hash s).outcome = .returned sub err
      ∧ (QuerySubscriptionByTxHash t hash s).state = s2
      ∧ (QuerySubscriptionByTxHash t hash s).calls
          = [.QueryTx hash, .UnmarshalBinaryLengthPrefixed res.Tx,
              .StringifyEvents [E0, E1], .QuerySubscription id]
      ∧ (∀ id', Call.QuerySubscription id' ∈ (QuerySubscriptionByTxHash t hash s).calls
          → id' = id)
      ∧ (QuerySubscriptionByTxHash t hash s).calls.count (.QuerySubscription id) = 1 := by
  have hse : t.StringifyEvents res.TxResult.Events
      = StringifyEvent E0 :: StringifyEvent E1 :: [] := by
    rw [hstr, hev, StringifyEvents_pair E0 E1 hlt]
  have hsa : (StringifyEvent E1).Attributes
      = ⟨bytesToString a.Key, bytesToString a.Value⟩
          :: attrs.map (fun x => ⟨bytesToString x.Key, bytesToString x.Value⟩) := by
    simp [StringifyEvent, hat]
  rw [resolve_by_second_stringified_event t hash s s1 s2 res stdTx m _ _ [] _ _ id sub err
    hq hok hd hm ht hse hsa hid hqs, hev]
  simp

/-- Witness of C4 on the sample ledger: hash `ABC123`, events of the types
`message` and `subscription`, identifier `sub-42`. -/
theorem C4_end_to_end_success_for_ascending_types_witness :
    (QuerySubscriptionByTxHash sampleTx "ABC123" 0).outcome
        = .returned (some sampleSubscription) none
      ∧ (QuerySubscriptionByTxHash sampleTx "ABC123" 0).state = 0
      ∧ (QuerySubscriptionByTxHash sampleTx "ABC123" 0).calls
          = [.QueryTx "ABC123", .UnmarshalBinaryLengthPrefixed [1],
              .StringifyEvents
                [⟨"message", [⟨[97], [49]⟩]⟩,
                  ⟨"subscription", [⟨[105, 100], [115, 117, 98, 45, 52, 50]⟩]⟩],
              .QuerySubscription "sub-42"]
      ∧ (∀ id', Call.QuerySubscription id' ∈ (QuerySubscriptionByTxHash sampleTx "ABC123" 0).calls
          → id' = "sub-42")
      ∧ (QuerySubscriptionByTxHash sampleTx "ABC123" 0).calls.count
          (.QuerySubscription "sub-42") = 1 :=
  C4_end_to_end_success_for_ascending_types sampleTx "ABC123" 0 0 0
    ⟨[1], ⟨0, "code:0", sampleEvents⟩⟩ ⟨[⟨"start_subscription", [7]⟩]⟩
    ⟨"start_subscription", [7]⟩ ⟨"message", [⟨[97], [49]⟩]⟩
    ⟨"subscription", [⟨[105, 100], [115, 117, 98, 45, 52, 50]⟩]⟩
    ⟨[105, 100], [115, 117, 98, 45, 52, 50]⟩ [] "sub-42" (some sampleSubscription) none
    (by rfl) (by rfl) (by decide) (by rfl) (by rfl) (by rfl) (by rfl) (by decide) (by rfl)
    (by decide) (by rfl)

/-- C4 as stated fails: on the sample ledger hash `BA5E` names a successful
start-subscription transaction that emitted `[E0, E1]` with `E0` of type
`subscription` (first attribute value `sub-42`) and `E1` of type `message` (first
attribute value `1`). The function queries `sub-42`, the first attribute value of
the first emitted event, and never queries `1`. -/
theorem C4_counterexample_descending_types :
    reversedEvents
        = [⟨"subscription", [⟨[105, 100], [115, 117, 98, 45, 52, 50]⟩]⟩,
            ⟨"message", [⟨[97], [49]⟩]⟩]
      ∧ bytesToString [49] = "1"
      ∧ bytesToString [115, 117, 98, 45, 52, 50] = "sub-42"
      ∧ (QuerySubscriptionByTxHash sampleTx "BA5E" 0).calls
          = [.QueryTx "BA5E", .UnmarshalBinaryLengthPrefixed [1],
              .StringifyEvents reversedEvents, .QuerySubscription "sub-42"]
      ∧ Call.QuerySubscription "1" ∉ (QuerySubscriptionByTxHash sampleTx "BA5E" 0).calls := by
  refine ⟨by rfl, by decide, by decide, by decide, by decide⟩

/-- C7: collaborator errors come back unchanged. If the fetch returns an error
`e`, the function returns `(nil, e)` and the fetch is the only call. If every gate
passes and the subscription-by-ID query returns an error `e`, the function returns
that `e` together with whatever record the query returned, and the query was
called once. -/
theorem C7_collaborator_errors_propagate {S : Type} (t : Tx S) :
    (∀ (hash : String) (s s1 : S) (e : Error), t.QueryTx hash s = (.error e, s1) →
        (QuerySubscriptionByTxHash t hash s).outcome = .returned none (some e)
          ∧ (QuerySubscriptionByTxHash t hash s).calls = [.QueryTx hash])
      ∧ (∀ (hash : String) (s s1 s2 : S) (res : ResultTx) (stdTx : StdTx) (m : Msg)
          (E0 E1 : StringEvent) (more : List StringEvent) (a : Attribute)
          (attrs : List Attribute) (sub : Option Subscription) (e : Error),
          t.QueryTx hash s = (.ok res, s1) → res.TxResult.IsOK = true →
          t.UnmarshalBinaryLengthPrefixed res.Tx = .ok stdTx → stdTx.Msgs = [m] →
          m.TypeName = "start_subscription" →
          t.StringifyEvents res.TxResult.Events = E0 :: E1 :: more →
          E1.Attributes = a :: attrs →
          t.QuerySubscription a.Value s1 = ((sub, some e), s2) →
          (QuerySubscriptionByTxHash t hash s).outcome = .returned sub (some e)
            ∧ (QuerySubscriptionByTxHash t hash s).calls.count (.QuerySubscription a.Value) = 1
            ∧ (QuerySubscriptionByTxHash t hash s).calls
                = [.QueryTx hash, .UnmarshalBinaryLengthPrefixed res.Tx,
                    .StringifyEvents res.TxResult.Events, .QuerySubscription a.Value]) := by
  refine ⟨fun hash s s1 e hq => ?_, ?_⟩
  · rw [run_fetch_error t hash s s1 e hq]
    exact ⟨rfl, rfl⟩
  · intro hash s s1 s2 res stdTx m E0 E1 more a attrs sub e hq hok hd hm ht hev hat hqs
    have hf := (invalidSubscriptionTx_eq_false stdTx).mpr ⟨m, hm, ht⟩
    rw [run_valid t hash s s1 res stdTx hq hok hd hf, hev]
    simp [hat, hqs]

/-- Witness of C7 on the sample ledger: hash `FFFF` is unknown to the fetcher,
and hash `7777` names a subscription the ledger does not hold. -/
theorem C7_collaborator_errors_witness :
    ((QuerySubscriptionByTxHash sampleTx "FFFF" 0).outcome
          = .returned none (some (.foreign 404 "tx not found"))
        ∧ (QuerySubscriptionByTxHash sampleTx "FFFF" 0).calls = [.QueryTx "FFFF"])
      ∧ ((QuerySubscriptionByTxHash sampleTx "7777" 0).outcome
            = .returned none (some (.foreign 404 "subscription does not exist"))
          ∧ (QuerySubscriptionByTxHash sampleTx "7777" 0).calls.count
              (.QuerySubscription "sub-7") = 1
          ∧ (QuerySubscriptionByTxHash sampleTx "7777" 0).calls
              = [.QueryTx "7777", .UnmarshalBinaryLengthPrefixed [1],
                  .StringifyEvents prunedEvents, .QuerySubscription "sub-7"]) :=
  ⟨(C7_collaborator_errors_propagate sampleTx).1 "FFFF" 0 0 (.foreign 404 "tx not found")
      (by rfl),
    (C7_collaborator_errors_propagate sampleTx).2 "7777" 0 0 0
      ⟨[1], ⟨0, "code:0", prunedEvents⟩⟩ ⟨[⟨"start_subscription", [7]⟩]⟩
      ⟨"start_subscription", [7]⟩ ⟨"message", [⟨"a", "1"⟩]⟩
      ⟨"subscription", [⟨"id", "sub-7"⟩]⟩ [] ⟨"id", "sub-7"⟩ [] none
      (.foreign 404 "subscription does not exist")
      (by rfl) (by decide) (by rfl) (by rfl) (by rfl) (by decide) (by rfl) (by rfl)⟩

/-- C2: on the sample ledger, hash `E0E0` names a successful start-subscription
transaction that emitted no event; the run ends in an index-out-of-range panic at
`events[1]`, not in an error result, and the subscription-by-ID query is not
called. -/
theorem C2_short_event_list_panics :
    (QuerySubscriptionByTxHash sampleTx "E0E0" 0).outcome = .indexOutOfRange 1 0
      ∧ (∀ sub err, (QuerySubscriptionByTxHash sampleTx "E0E0" 0).outcome ≠ .returned sub err)
      ∧ (QuerySubscriptionByTxHash sampleTx "E0E0" 0).calls
          = [.QueryTx "E0E0", .UnmarshalBinaryLengthPrefixed [1], .StringifyEvents []] := by
  refine ⟨by decide, fun sub err => ?_, by decide⟩
  have h : (QuerySubscriptionByTxHash sampleTx "E0E0" 0).outcome = .indexOutOfRange 1 0 := by
    decide
  rw [h]
  exact fun hne => Outcome.noConfusion hne

/-- C5: on the sample ledger, hash `5555` names a failed transaction whose result
renders as `code:5 log:"fee 5% exceeded"`; the message of the returned error is
`code:5 log:"fee 5%!e(MISSING)xceeded"`, which is not the ledger's text. -/
theorem C5_percent_in_failure_text_is_reformatted :
    (QuerySubscriptionByTxHash sampleTx "5555" 0).outcome
        = .returned none (some (Error.fundamental "code:5 log:\"fee 5%!e(MISSING)xceeded\""))
      ∧ (Errorf "code:5 log:\"fee 5% exceeded\"").Message ≠ "code:5 log:\"fee 5% exceeded\"" := by
  constructor <;> decide

/-- C10: on the sample driver, `UpdateOne` and `UpdateMany` hand the driver the
session handle where the selector belongs; the caller's selector reaches neither
`Update` nor `UpdateAll`. -/
theorem C10_update_passes_session_as_selector :
    (sampleMongo.UpdateOne sampleDriver "hub" "nodes" (.document "id: node-1")
        (.document "status: up")).2
        = [.DialWithInfo ⟨["localhost:27017"], 60000000000, "u", "p"⟩,
            .Update "hub" "nodes" (.session ⟨⟨["localhost:27017"], 60000000000, "u", "p"⟩⟩)
              (.document "status: up"),
            .Close ⟨⟨["localhost:27017"], 60000000000, "u", "p"⟩⟩]
      ∧ MgoCall.Update "hub" "nodes" (.document "id: node-1") (.document "status: up")
          ∉ (sampleMongo.UpdateOne sampleDriver "hub" "nodes" (.document "id: node-1")
              (.document "status: up")).2
      ∧ MgoCall.UpdateAll "hub" "nodes" (.document "id: node-1") (.document "status: up")
          ∉ (sampleMongo.UpdateMany sampleDriver "hub" "nodes" (.document "id: node-1")
              (.document "status: up")).2 := by
  refine ⟨by decide, by decide, by decide⟩

/-! ## Facts about the formatter used by `errors.Errorf` -/

/-- A doubled percent sign is written as one. -/
theorem Sprintf_percent_percent : Sprintf "100%% sure" = "100% sure" := by decide

/-- A dot that ends the format is taken as the verb. -/
theorem Sprintf_trailing_dot : Sprintf "%." = "%!.(MISSING)" := by decide

/-- A precision followed by a verb is consumed with it. -/
theorem Sprintf_precision : Sprintf "%.d|%.3" = "%!d(MISSING)|%!(NOVERB)" := by decide

/-- A lone percent sign at the end of the format has no verb. -/
theorem Sprintf_no_verb : Sprintf "%" = "%!(NOVERB)" := by decide

/-- An explicit operand index cannot name an operand. -/
theorem Sprintf_bad_index : Sprintf "%[1]d|" = "%!d(BADINDEX)|" := by decide

/-- A starred width and a starred precision have no operand to read. -/
theorem Sprintf_star :
    Sprintf "%*d|" = "%!(BADWIDTH)%!d(MISSING)|"
      ∧ Sprintf "%.*d|" = "%!(BADPREC)%!d(MISSING)|" := by
  constructor <;> decide

/-- Flags, width and precision are consumed with the verb they belong to. -/
theorem Sprintf_flags_width : Sprintf "%-08.3f|%z" = "%!f(MISSING)|%!z(MISSING)" := by decide

/-- A failure text without a percent sign is the message of the error built from
it. -/
theorem Errorf_message_of_no_percent (text : String) (h : '%' ∉ text.data) :
    (Errorf text).Message = text := by
  simp [Errorf, Error.Message, Sprintf, doPrintf_of_no_percent text.data h]

/-! ## What the code does at the places where it departs from the claims -/

/-- Once validation has passed, an events sequence of fewer than two entries ends
the run in an index-out-of-range panic at `events[1]`, after the fetch, the decode
and the stringification; the subscription-by-ID query is not called. -/
theorem short_events_panic {S : Type} (t : Tx S) (hash : String) (s s1 : S) (res : ResultTx)
    (stdTx : StdTx) (m : Msg) (hq : t.QueryTx hash s = (.ok res, s1))
    (hok : res.TxResult.IsOK = true) (hd : t.UnmarshalBinaryLengthPrefixed res.Tx = .ok stdTx)
    (hm : stdTx.Msgs = [m]) (ht : m.TypeName = "start_subscription")
    (hlen : (t.StringifyEvents res.TxResult.Events).length < 2) :
    (QuerySubscriptionByTxHash t hash s).outcome
        = .indexOutOfRange 1 (t.StringifyEvents res.TxResult.Events).length
      ∧ (QuerySubscriptionByTxHash t hash s).calls
          = [.QueryTx hash, .UnmarshalBinaryLengthPrefixed res.Tx,
              .StringifyEvents res.TxResult.Events] := by
  have hf := (invalidSubscriptionTx_eq_false stdTx).mpr ⟨m, hm, ht⟩
  have hnone : (t.StringifyEvents res.TxResult.Events)[1]? = none :=
    List.getElem?_eq_none (by omega)
  rw [run_valid t hash s s1 res stdTx hq hok hd hf, hnone]
  exact ⟨rfl, rfl⟩

/-- Evaluation of `short_events_panic` on the sample ledger, hash `E0E0`. -/
theorem short_events_panic_witness :
    (QuerySubscriptionByTxHash sampleTx "E0E0" 0).outcome = .indexOutOfRange 1 0
      ∧ (QuerySubscriptionByTxHash sampleTx "E0E0" 0).calls
          = [.QueryTx "E0E0", .UnmarshalBinaryLengthPrefixed [1], .StringifyEvents []] :=
  short_events_panic sampleTx "E0E0" 0 0 ⟨[1], ⟨0, "code:0", []⟩⟩
    ⟨[⟨"start_subscription", [7]⟩]⟩ ⟨"start_subscription", [7]⟩
    (by rfl) (by decide) (by rfl) (by rfl) (by rfl) (by decide)

/-- Whenever the dial succeeds, `UpdateOne` calls the driver's `Update` once, with
the session handle as the selector and the caller's update, and returns what that
call returns; a caller's selector that is not this handle is in no driver call. -/
theorem UpdateOne_selector_is_session (m : mongo) (d : Driver) (database collection : String)
    (selector update : Value) (session : Session) (hdial : (m.newSession d).2 = .ok session) :
    (m.UpdateOne d database collection selector update).1
        = d.Update database collection (.session session) update
      ∧ (m.UpdateOne d database collection selector update).2
          = [.DialWithInfo (m.newSession d).1,
              .Update database collection (.session session) update, .Close session]
      ∧ (selector ≠ .session session →
          MgoCall.Update database collection selector update
            ∉ (m.UpdateOne d database collection selector update).2) := by
  unfold mongo.UpdateOne
  rcases hn : m.newSession d with ⟨settings, r⟩
  rw [hn] at hdial
  simp only at hdial
  subst hdial
  refine ⟨rfl, rfl, fun hne => ?_⟩
  simp [hne]

/-- Evaluation of `UpdateOne_selector_is_session` on the sample driver. -/
theorem UpdateOne_selector_is_session_witness :
    (sampleMongo.UpdateOne sampleDriver "hub" "nodes" (.document "id: node-1")
        (.document "status: up")).1
        = sampleDriver.Update "hub" "nodes"
            (.session ⟨⟨["localhost:27017"], 60000000000, "u", "p"⟩⟩) (.document "status: up")
      ∧ (sampleMongo.UpdateOne sampleDriver "hub" "nodes" (.document "id: node-1")
          (.document "status: up")).2
          = [.DialWithInfo (sampleMongo.newSession sampleDriver).1,
              .Update "hub" "nodes" (.session ⟨⟨["localhost:27017"], 60000000000, "u", "p"⟩⟩)
                (.document "status: up"),
              .Close ⟨⟨["localhost:27017"], 60000000000, "u", "p"⟩⟩]
      ∧ (Value.document "id: node-1"
            ≠ .session ⟨⟨["localhost:27017"], 60000000000, "u", "p"⟩⟩ →
          MgoCall.Update "hub" "nodes" (.document "id: node-1") (.document "status: up")
            ∉ (sampleMongo.UpdateOne sampleDriver "hub" "nodes" (.document "id: node-1")
                (.document "status: up")).2) :=
  UpdateOne_selector_is_session sampleMongo sampleDriver "hub" "nodes" (.document "id: node-1")
    (.document "status: up") ⟨⟨["localhost:27017"], 60000000000, "u", "p"⟩⟩ (by rfl)

/-- Evaluation of `Errorf_message_of_no_percent` at the text `code:5 log:"out of gas"`. -/
theorem Errorf_message_of_no_percent_witness :
    (Errorf "code:5 log:\"out of gas\"").Message = "code:5 log:\"out of gas\"" :=
  Errorf_message_of_no_percent "code:5 log:\"out of gas\"" (by decide)

end DvpnNode
